import Mathlib

/-!
# Market snapshot pipeline: verification of the core logic

Shallow embedding of the snapshot synthesis pipeline of service.py:
the Metric Deriver (price / previous-close / volume resolution with
Python truthiness semantics, lines 23-50) and the Classifier
(the function named generate-reasoning, lines 65-112).

Modelling conventions:
* Python floats are modelled as rationals; Python ints as integers.
* A missing dict key (info.get returning None) is Option.none.
* Python truthiness of an optional number (None and 0.0 are falsy,
  everything else truthy) is the qTruthy test below; the Python idiom
  x or y is modelled by branching on truthiness of x.
* round(x, 2) is round2; the round of Lean rounds halves up while
  Python uses round-half-to-even, but no statement below touches an
  exact tie, so the two agree everywhere they are used.
* Rational division is total with x / 0 = 0; in the source the only
  division is by the resolved previous close, and every statement about
  the value of change-percent carries the hypothesis that the resolved
  previous close is nonzero, so the degenerate value is never relied
  on.  (In the Python implementation a zero previous close can only
  arrive as a numpy float, where the division yields an IEEE infinity
  rather than raising; no statement below asserts the change value in
  that case.)
* The ValueError raised on missing price data is the error branch of
  the Except result.
-/

/-- The raw quote record handed to the orchestrator by the fetch step:
the info dict fields it reads plus the Close column of the history
table, most-recent-last. -/
structure RawQuote where
  currentPrice : Option ℚ
  regularMarketPrice : Option ℚ
  previousClose : Option ℚ
  volume : Option ℤ
  beta : Option ℚ
  history : List ℚ
deriving Repr, DecidableEq

/-- Python truthiness of an optional float: None and 0.0 are falsy. -/
def qTruthy : Option ℚ → Bool
  | none => false
  | some x => x != 0

/-- Models line 50, the volume field resolved as the Python expression
info.get of volume, or else the literal 0: the volume if present and
truthy, otherwise 0. -/
def volumeOrZero : Option ℤ → ℤ
  | none => 0
  | some v => if v = 0 then 0 else v

/-- Models MarketData of models.py: the derived numeric triple. -/
structure MarketData where
  price : ℚ
  change_percent : ℚ
  volume : ℤ
deriving Repr, DecidableEq

/-- Models Reasoning of models.py: the two categorical labels. -/
structure Reasoning where
  thesis : String
  risk : String
deriving Repr, DecidableEq

/-- Models SnapshotResponse of models.py restricted to the fields the
core computes (the timestamp is taken at assembly time and is outside
the functional core). -/
structure SnapshotResponse where
  ticker : String
  data : MarketData
  reasoning : Reasoning
deriving Repr, DecidableEq

/-- Thesis string of the strong bullish band (line 89). -/
def strongBullishThesis : String :=
  "Strong Bullish momentum detected. Price is significantly outperforming daily baseline."

/-- Thesis string of the modest bullish band (line 91). -/
def modestBullishThesis : String :=
  "Modest Bullish trend. Stock is trading positively but within normal variance."

/-- Thesis string of the strong bearish band (line 93). -/
def strongBearishThesis : String :=
  "Strong Bearish pressure. Significant sell-off detected today."

/-- Thesis string of the bearish band (line 95). -/
def bearishThesis : String :=
  "Bearish sentiment. Stock is underperforming daily baseline."

/-- Thesis string of the neutral band (line 97). -/
def neutralThesis : String :=
  "Neutral/Consolidation. Price is chopping sideways with no clear direction."

/-- Risk string of the high band (line 105). -/
def highRisk : String :=
  "HIGH. This asset historically moves significantly more than the market."

/-- Risk string of the low band (line 107). -/
def lowRisk : String :=
  "LOW. This asset is historically defensive and stable."

/-- Risk string of the medium band (line 109). -/
def mediumRisk : String :=
  "MEDIUM. Volatility is in line with the broader market."

/-- Models line 102: the effective beta is the argument unless it is
Python-falsy, in which case it is 1.0; for a float the only falsy value
is exactly zero. -/
def beta_val (beta : ℚ) : ℚ := if beta = 0 then 1 else beta

/-- Models the pure threshold classifier of service.py lines 65-112
(the private reasoning generator): fixed momentum bands on the change
percentage and fixed beta bands on the effective beta. -/
def generate_reasoning (change_pct : ℚ) (beta : ℚ) : Reasoning :=
  let thesis :=
    if change_pct > 3.0 then strongBullishThesis
    else if change_pct > 0.5 then modestBullishThesis
    else if change_pct < -3.0 then strongBearishThesis
    else if change_pct < -0.5 then bearishThesis
    else neutralThesis
  let risk :=
    if beta_val beta > 1.5 then highRisk
    else if beta_val beta < 0.85 then lowRisk
    else mediumRisk
  ⟨thesis, risk⟩

/-- Models lines 23-27: the live current price if truthy, else the
regular market price, then the fallback to the last close of the
history when the result so far is falsy and the history is non-empty.
Returns whatever value the Python variable holds just before the raise
check (possibly still a falsy one). -/
def resolve_current_price (q : RawQuote) : Option ℚ :=
  let cp := if qTruthy q.currentPrice then q.currentPrice else q.regularMarketPrice
  if !qTruthy cp && !q.history.isEmpty then q.history.getLast? else cp

/-- Models line 33: the explicit previous-close field if truthy, else
the second-to-last history entry when more than one entry exists, else
the resolved current price itself. -/
def resolve_previous_close (q : RawQuote) (current_price : ℚ) : ℚ :=
  if qTruthy q.previousClose then q.previousClose.getD 0
  else if q.history.length > 1 then q.history.getD (q.history.length - 2) 0
  else current_price

/-- Two-decimal rounding, modelling round(x, 2). -/
def round2 (x : ℚ) : ℚ := ((round (x * 100) : ℤ) : ℚ) / 100

/-- Models get_snapshot of service.py (lines 11-52) after the external
fetch: the Metric Deriver plus the call into the Classifier and the
response assembly.  Raising ValueError is the error branch. -/
def get_snapshot (ticker_symbol : String) (q : RawQuote) :
    Except String SnapshotResponse :=
  let current_price := resolve_current_price q
  if !qTruthy current_price then
    .error ("Could not find price data for " ++ ticker_symbol)
  else
    let cp := current_price.getD 0
    let previous_close := resolve_previous_close q cp
    let change_percent := ((cp - previous_close) / previous_close) * 100
    let reasoning := generate_reasoning change_percent (q.beta.getD 1)
    .ok
      { ticker := ticker_symbol.toUpper
        data :=
          { price := round2 cp
            change_percent := round2 change_percent
            volume := volumeOrZero q.volume }
        reasoning := reasoning }

/-- Success test for a snapshot result. -/
def snapOk : Except String SnapshotResponse → Bool
  | .ok _ => true
  | .error _ => false

/-- Price projection of a snapshot result. -/
def priceOf : Except String SnapshotResponse → Option ℚ
  | .ok s => some s.data.price
  | .error _ => none

/-- Volume projection of a snapshot result. -/
def volumeOf : Except String SnapshotResponse → Option ℤ
  | .ok s => some s.data.volume
  | .error _ => none

/-- A quote whose present price fields are genuine (strictly positive)
prices.  The claims about resolution order quantify over such quotes;
zero-valued price fields are the Python-falsy degenerate case treated
by the zero-as-absent claim. -/
def ValidQuote (q : RawQuote) : Bool :=
  (match q.currentPrice with | none => true | some x => decide (0 < x)) &&
  (match q.regularMarketPrice with | none => true | some x => decide (0 < x)) &&
  (match q.previousClose with | none => true | some x => decide (0 < x)) &&
  q.history.all (fun x => decide (0 < x))

/-- Unfolded form of the thesis label of the classifier. -/
theorem generate_reasoning_thesis (c b : ℚ) :
    (generate_reasoning c b).thesis =
      if c > 3.0 then strongBullishThesis
      else if c > 0.5 then modestBullishThesis
      else if c < -3.0 then strongBearishThesis
      else if c < -0.5 then bearishThesis
      else neutralThesis := rfl

/-- Unfolded form of the risk label of the classifier. -/
theorem generate_reasoning_risk (c b : ℚ) :
    (generate_reasoning c b).risk =
      if beta_val b > 1.5 then highRisk
      else if beta_val b < 0.85 then lowRisk
      else mediumRisk := rfl

/-- The risk label is the high one exactly when the effective beta
exceeds 1.5. -/
theorem risk_high_iff (c b : ℚ) :
    (generate_reasoning c b).risk = highRisk ↔ beta_val b > 1.5 := by
  rw [generate_reasoning_risk]
  by_cases h1 : beta_val b > 1.5
  · rw [if_pos h1]; exact iff_of_true rfl h1
  · rw [if_neg h1]
    by_cases h2 : beta_val b < 0.85
    · rw [if_pos h2]; exact iff_of_false (by decide) h1
    · rw [if_neg h2]; exact iff_of_false (by decide) h1

/-- The risk label is the low one exactly when the effective beta is
below 0.85 and the high band did not match first. -/
theorem risk_low_iff (c b : ℚ) :
    (generate_reasoning c b).risk = lowRisk ↔
      ¬ beta_val b > 1.5 ∧ beta_val b < 0.85 := by
  rw [generate_reasoning_risk]
  by_cases h1 : beta_val b > 1.5
  · rw [if_pos h1]; exact iff_of_false (by decide) (fun h => h.1 h1)
  · rw [if_neg h1]
    by_cases h2 : beta_val b < 0.85
    · rw [if_pos h2]; exact iff_of_true rfl ⟨h1, h2⟩
    · rw [if_neg h2]; exact iff_of_false (by decide) (fun h => h2 h.2)

/-- The risk label is the medium one exactly when the effective beta
lies in the closed band from 0.85 to 1.5. -/
theorem risk_medium_iff (c b : ℚ) :
    (generate_reasoning c b).risk = mediumRisk ↔
      0.85 ≤ beta_val b ∧ beta_val b ≤ 1.5 := by
  rw [generate_reasoning_risk]
  by_cases h1 : beta_val b > 1.5
  · rw [if_pos h1]
    exact iff_of_false (by decide) (fun h => absurd h1 (not_lt.mpr h.2))
  · rw [if_neg h1]
    by_cases h2 : beta_val b < 0.85
    · rw [if_pos h2]
      exact iff_of_false (by decide) (fun h => absurd h2 (not_lt.mpr h.1))
    · rw [if_neg h2]; exact iff_of_true rfl ⟨not_lt.mp h2, not_lt.mp h1⟩

/-- Unfolding of the quote validity predicate into its four positivity
components. -/
theorem validQuote_iff (q : RawQuote) :
    ValidQuote q = true ↔
      (∀ x, q.currentPrice = some x → 0 < x) ∧
      (∀ x, q.regularMarketPrice = some x → 0 < x) ∧
      (∀ x, q.previousClose = some x → 0 < x) ∧
      (∀ x ∈ q.history, 0 < x) := by
  unfold ValidQuote
  cases q.currentPrice <;> cases q.regularMarketPrice <;> cases q.previousClose <;>
    simp [List.all_eq_true, and_assoc]

/-- A strictly positive optional value is Python-truthy. -/
theorem qTruthy_some_pos {x : ℚ} (h : 0 < x) : qTruthy (some x) = true := by
  simp [qTruthy]
  exact ne_of_gt h

/-- Shape of the successful output: when the resolved current price is
a truthy value, the deriver succeeds and every output field is the
stated function of the resolved inputs. -/
theorem get_snapshot_ok_shape (t : String) (q : RawQuote) (cp : ℚ)
    (hcp : resolve_current_price q = some cp) (h0 : cp ≠ 0) :
    get_snapshot t q = .ok
      { ticker := t.toUpper
        data := { price := round2 cp
                  change_percent := round2
                    (((cp - resolve_previous_close q cp) /
                        resolve_previous_close q cp) * 100)
                  volume := volumeOrZero q.volume }
        reasoning := generate_reasoning
          (((cp - resolve_previous_close q cp) /
              resolve_previous_close q cp) * 100) (q.beta.getD 1) } := by
  unfold get_snapshot
  rw [hcp]
  simp [qTruthy, h0]

/-- Shape of the failing output: when the resolved current price is
falsy, the deriver raises the no-price-data error. -/
theorem get_snapshot_error_shape (t : String) (q : RawQuote)
    (h : qTruthy (resolve_current_price q) = false) :
    get_snapshot t q = .error ("Could not find price data for " ++ t) := by
  simp [get_snapshot, h]

/-- Under a valid quote, the resolved current price is none exactly when
all three sources are absent, and otherwise is a strictly positive
value. -/
theorem resolve_current_price_valid (q : RawQuote) (hv : ValidQuote q = true) :
    (resolve_current_price q = none ∧
       q.currentPrice = none ∧ q.regularMarketPrice = none ∧ q.history = []) ∨
    (∃ cp, resolve_current_price q = some cp ∧ 0 < cp ∧
       ¬(q.currentPrice = none ∧ q.regularMarketPrice = none ∧ q.history = [])) := by
  obtain ⟨hc, hr, -, hh⟩ := (validQuote_iff q).mp hv
  unfold resolve_current_price
  cases hcq : q.currentPrice with
  | some x =>
    have hx := hc x hcq
    right
    refine ⟨x, ?_, hx, by simp [hcq]⟩
    rw [if_pos (qTruthy_some_pos hx)]
    simp [qTruthy_some_pos hx]
  | none =>
    cases hrq : q.regularMarketPrice with
    | some y =>
      have hy := hr y hrq
      right
      refine ⟨y, ?_, hy, by simp [hrq]⟩
      simp [qTruthy, hy.ne']
    | none =>
      cases hhq : q.history with
      | nil => left; simp [qTruthy]
      | cons a as =>
        have hne : (a :: as) ≠ ([] : List ℚ) := by simp
        have hmem : (a :: as).getLast hne ∈ q.history := by
          rw [hhq]; exact List.getLast_mem hne
        have hpos := hh _ hmem
        right
        refine ⟨(a :: as).getLast hne, ?_, hpos, by simp [hhq]⟩
        simp [qTruthy]
        exact List.getLast?_eq_getLast_of_ne_nil hne

/-- Rounding a non-negative rational to two decimals stays
non-negative. -/
theorem round2_nonneg {x : ℚ} (h : 0 ≤ x) : 0 ≤ round2 x := by
  unfold round2
  apply div_nonneg _ (by norm_num)
  have h2 : (0:ℤ) ≤ round (x * 100) := by
    rw [round_eq, Int.floor_nonneg]
    linarith
  exact_mod_cast h2

/-- The deriver reads the quote only through the truthiness and the
default-zero value of the resolved current price and of the
previous-close field, plus the history, volume and beta fields. -/
theorem get_snapshot_congr (t : String) (q1 q2 : RawQuote)
    (hq : qTruthy (resolve_current_price q1) =
      qTruthy (resolve_current_price q2))
    (hd : (resolve_current_price q1).getD 0 =
      (resolve_current_price q2).getD 0)
    (hpq : qTruthy q1.previousClose = qTruthy q2.previousClose)
    (hpd : q1.previousClose.getD 0 = q2.previousClose.getD 0)
    (h3 : q1.history = q2.history) (h4 : q1.volume = q2.volume)
    (h5 : q1.beta = q2.beta) :
    get_snapshot t q1 = get_snapshot t q2 := by
  simp only [get_snapshot, resolve_previous_close]
  rw [hq, hd, hpq, hpd, h3, h4, h5]

/-- C1: for every valid RawQuote, the Metric Deriver fails (raises the
no-price-data ValueError) exactly when the current price is absent, the
regular market price is absent and the closing-price history is empty;
the previous-close, volume and beta fields do not occur in the
condition, so their absence never causes a failure. -/
theorem get_snapshot_fails_iff_no_price_source (t : String) (q : RawQuote)
    (hv : ValidQuote q = true) :
    snapOk (get_snapshot t q) = false ↔
      q.currentPrice = none ∧ q.regularMarketPrice = none ∧ q.history = [] := by
  rcases resolve_current_price_valid q hv with ⟨hn, habs⟩ | ⟨cp, hcp, hpos, hnabs⟩
  · rw [get_snapshot_error_shape t q (by rw [hn]; rfl)]
    exact iff_of_true rfl habs
  · rw [get_snapshot_ok_shape t q cp hcp hpos.ne']
    exact iff_of_false (by simp [snapOk]) hnabs

/-- Witness for C1: the all-absent quote is valid and fails. -/
theorem get_snapshot_fails_iff_no_price_source_witness :
    snapOk (get_snapshot "ABC" ⟨none, none, none, none, none, []⟩) = false :=
  (get_snapshot_fails_iff_no_price_source "ABC"
    ⟨none, none, none, none, none, []⟩ rfl).mpr ⟨rfl, rfl, rfl⟩

/-- C2 counterexample: a valid quote with current price 0.001 succeeds,
yet the emitted price field is exactly 0 (two-decimal rounding sends
every price below half a cent to zero), refuting the claim that the
output price is always strictly positive. -/
theorem rounded_price_zero_counterexample :
    ValidQuote ⟨some (1/1000), none, none, none, none, []⟩ = true ∧
    priceOf (get_snapshot "TINY" ⟨some (1/1000), none, none, none, none, []⟩) =
      some 0 := by
  have hne : (1/1000 : ℚ) ≠ 0 := by norm_num
  have h1 : resolve_current_price ⟨some (1/1000), none, none, none, none, []⟩ =
      some (1/1000) := by
    simp [resolve_current_price, qTruthy, hne]
  constructor
  · simp [ValidQuote]
  · rw [get_snapshot_ok_shape "TINY" _ (1/1000) h1 hne]
    unfold priceOf
    norm_num [round2, round_eq]

/-- C2 amended: for every valid RawQuote with at least one price source
present, the Metric Deriver succeeds, the resolved (unrounded) current
price is strictly positive, and the output price field is that price
rounded to two decimals, hence non-negative (but possibly zero, as the
counterexample shows). -/
theorem get_snapshot_price_round_of_pos (t : String) (q : RawQuote)
    (hv : ValidQuote q = true)
    (hsome : ¬(q.currentPrice = none ∧ q.regularMarketPrice = none ∧
      q.history = [])) :
    ∃ cp s, resolve_current_price q = some cp ∧ 0 < cp ∧
      get_snapshot t q = .ok s ∧ s.data.price = round2 cp ∧
      0 ≤ s.data.price := by
  rcases resolve_current_price_valid q hv with ⟨_, habs⟩ | ⟨cp, hcp, hpos, _⟩
  · exact absurd habs hsome
  · exact ⟨cp, _, hcp, hpos, get_snapshot_ok_shape t q cp hcp hpos.ne', rfl,
      round2_nonneg hpos.le⟩

/-- Witness for the amended C2 at a quote with current price 110. -/
theorem get_snapshot_price_round_of_pos_witness :
    ∃ cp s,
      resolve_current_price ⟨some 110, none, none, none, none, []⟩ = some cp ∧
      0 < cp ∧
      get_snapshot "NVDA" ⟨some 110, none, none, none, none, []⟩ = .ok s ∧
      s.data.price = round2 cp ∧ 0 ≤ s.data.price :=
  get_snapshot_price_round_of_pos "NVDA" ⟨some 110, none, none, none, none, []⟩
    (by simp [ValidQuote]) (by simp)

/-- C3: on the success path of a valid quote, the previous close is the
explicit previous-close field when present, else the second-to-last
history entry when at least two entries exist, else the resolved
current price itself (making the change exactly 0); the classifier
receives the unrounded change percentage while the output price and
change-percent fields are rounded to two decimals. -/
theorem previous_close_resolution (t : String) (q : RawQuote) (cp : ℚ)
    (hv : ValidQuote q = true) (hcp : resolve_current_price q = some cp) :
    ∃ s, get_snapshot t q = .ok s ∧
      (∀ p, q.previousClose = some p → resolve_previous_close q cp = p) ∧
      (q.previousClose = none → 1 < q.history.length →
        resolve_previous_close q cp =
          q.history.getD (q.history.length - 2) 0) ∧
      (q.previousClose = none → q.history.length ≤ 1 →
        resolve_previous_close q cp = cp ∧
        ((cp - resolve_previous_close q cp) /
            resolve_previous_close q cp) * 100 = 0) ∧
      s.reasoning = generate_reasoning
        (((cp - resolve_previous_close q cp) /
            resolve_previous_close q cp) * 100) (q.beta.getD 1) ∧
      s.data.price = round2 cp ∧
      s.data.change_percent = round2
        (((cp - resolve_previous_close q cp) /
            resolve_previous_close q cp) * 100) := by
  obtain ⟨-, -, hpc, -⟩ := (validQuote_iff q).mp hv
  have hpos : 0 < cp := by
    rcases resolve_current_price_valid q hv with ⟨hn, -⟩ | ⟨cp2, hcp2, hpos2, -⟩
    · rw [hn] at hcp; exact absurd hcp (by simp)
    · rw [hcp2] at hcp; exact Option.some_injective _ hcp ▸ hpos2
  refine ⟨_, get_snapshot_ok_shape t q cp hcp hpos.ne', ?_, ?_, ?_, rfl, rfl, rfl⟩
  · intro p hp
    have hppos := hpc p hp
    unfold resolve_previous_close
    rw [hp, if_pos (qTruthy_some_pos hppos)]
    rfl
  · intro hnone hlen
    unfold resolve_previous_close
    rw [hnone]
    simp [qTruthy, hlen]
  · intro hnone hlen
    have hres : resolve_previous_close q cp = cp := by
      unfold resolve_previous_close
      rw [hnone]
      simp [qTruthy, Nat.lt_iff_add_one_le]
      omega
    refine ⟨hres, ?_⟩
    rw [hres]
    simp

/-- Witness for C3 at a quote with current price 110 and explicit
previous close 100. -/
theorem previous_close_resolution_witness :
    ∃ s,
      get_snapshot "nvda" ⟨some 110, none, some 100, none, none, []⟩ = .ok s ∧
      (∀ p, (⟨some 110, none, some 100, none, none, []⟩ : RawQuote).previousClose =
          some p →
        resolve_previous_close ⟨some 110, none, some 100, none, none, []⟩ 110 = p) ∧
      ((⟨some 110, none, some 100, none, none, []⟩ : RawQuote).previousClose = none →
        1 < (⟨some 110, none, some 100, none, none, []⟩ : RawQuote).history.length →
        resolve_previous_close ⟨some 110, none, some 100, none, none, []⟩ 110 =
          (⟨some 110, none, some 100, none, none, []⟩ : RawQuote).history.getD
            ((⟨some 110, none, some 100, none, none, []⟩ : RawQuote).history.length - 2) 0) ∧
      ((⟨some 110, none, some 100, none, none, []⟩ : RawQuote).previousClose = none →
        (⟨some 110, none, some 100, none, none, []⟩ : RawQuote).history.length ≤ 1 →
        resolve_previous_close ⟨some 110, none, some 100, none, none, []⟩ 110 = 110 ∧
        ((110 - resolve_previous_close ⟨some 110, none, some 100, none, none, []⟩ 110) /
            resolve_previous_close ⟨some 110, none, some 100, none, none, []⟩ 110) * 100 = 0) ∧
      s.reasoning = generate_reasoning
        (((110 - resolve_previous_close ⟨some 110, none, some 100, none, none, []⟩ 110) /
            resolve_previous_close ⟨some 110, none, some 100, none, none, []⟩ 110) * 100)
        ((⟨some 110, none, some 100, none, none, []⟩ : RawQuote).beta.getD 1) ∧
      s.data.price = round2 110 ∧
      s.data.change_percent = round2
        (((110 - resolve_previous_close ⟨some 110, none, some 100, none, none, []⟩ 110) /
            resolve_previous_close ⟨some 110, none, some 100, none, none, []⟩ 110) * 100) :=
  previous_close_resolution "nvda" ⟨some 110, none, some 100, none, none, []⟩ 110
    (by simp [ValidQuote]) (by simp [resolve_current_price, qTruthy])

/-- C4: the thesis bands are evaluated in order with first match
winning and exclusive boundaries: above 3.0 strong bullish, above 0.5
modest bullish, below -3.0 strong bearish, below -0.5 bearish,
otherwise neutral; in particular 0.5 exactly is neutral and 3.0
exactly is modest bullish. -/
theorem thesis_threshold_bands (c b : ℚ) :
    (c > 3.0 → (generate_reasoning c b).thesis = strongBullishThesis) ∧
    (c > 0.5 → c ≤ 3.0 → (generate_reasoning c b).thesis = modestBullishThesis) ∧
    (c < -3.0 → (generate_reasoning c b).thesis = strongBearishThesis) ∧
    (-3.0 ≤ c → c < -0.5 → (generate_reasoning c b).thesis = bearishThesis) ∧
    (-0.5 ≤ c → c ≤ 0.5 → (generate_reasoning c b).thesis = neutralThesis) ∧
    (generate_reasoning 0.5 b).thesis = neutralThesis ∧
    (generate_reasoning 3.0 b).thesis = modestBullishThesis := by
  refine ⟨?_, ?_, ?_, ?_, ?_, ?_, ?_⟩ <;>
    intros <;> rw [generate_reasoning_thesis] <;> split_ifs <;>
    first | rfl | linarith

/-- Witness for C4: one representative of each band. -/
theorem thesis_threshold_bands_witness :
    (generate_reasoning 4 1).thesis = strongBullishThesis ∧
    (generate_reasoning 1 1).thesis = modestBullishThesis ∧
    (generate_reasoning (-4) 1).thesis = strongBearishThesis ∧
    (generate_reasoning (-1) 1).thesis = bearishThesis ∧
    (generate_reasoning 0 1).thesis = neutralThesis :=
  ⟨(thesis_threshold_bands 4 1).1 (by norm_num),
   (thesis_threshold_bands 1 1).2.1 (by norm_num) (by norm_num),
   (thesis_threshold_bands (-4) 1).2.2.1 (by norm_num),
   (thesis_threshold_bands (-1) 1).2.2.2.1 (by norm_num) (by norm_num),
   (thesis_threshold_bands 0 1).2.2.2.2.1 (by norm_num) (by norm_num)⟩

/-- C5: the risk label is high exactly when the effective beta exceeds
1.5, low exactly when it is below 0.85, and medium otherwise; the
effective beta is 1 when the passed beta is zero and is the beta
itself otherwise; beta exactly 1.5, exactly 0.85, exactly 0, and the
absent-beta default all yield medium. -/
theorem risk_threshold_bands (c b : ℚ) :
    ((generate_reasoning c b).risk = highRisk ↔ beta_val b > 1.5) ∧
    ((generate_reasoning c b).risk = lowRisk ↔ beta_val b < 0.85) ∧
    ((generate_reasoning c b).risk = mediumRisk ↔
      0.85 ≤ beta_val b ∧ beta_val b ≤ 1.5) ∧
    beta_val 0 = 1 ∧
    (∀ x : ℚ, x ≠ 0 → beta_val x = x) ∧
    (generate_reasoning c 1.5).risk = mediumRisk ∧
    (generate_reasoning c 0.85).risk = mediumRisk ∧
    (generate_reasoning c 0).risk = mediumRisk ∧
    (generate_reasoning c ((none : Option ℚ).getD 1)).risk = mediumRisk := by
  have hb0 : beta_val 0 = 1 := by simp [beta_val]
  have hbne : ∀ x : ℚ, x ≠ 0 → beta_val x = x := fun x hx => by simp [beta_val, hx]
  refine ⟨risk_high_iff c b, ?_, risk_medium_iff c b, hb0, hbne, ?_, ?_, ?_, ?_⟩
  · rw [risk_low_iff]
    constructor
    · exact fun h => h.2
    · intro h
      exact ⟨fun hgt => absurd (lt_trans h (by norm_num)) (lt_asymm hgt), h⟩
  · rw [risk_medium_iff, hbne 1.5 (by norm_num)]
    norm_num
  · rw [risk_medium_iff, hbne 0.85 (by norm_num)]
    norm_num
  · rw [risk_medium_iff, hb0]; norm_num
  · show (generate_reasoning c 1).risk = mediumRisk
    rw [risk_medium_iff, hbne 1 (by norm_num)]
    norm_num

/-- Witness for C5: a beta of 2 is kept as the effective beta and lands
in the high band. -/
theorem risk_threshold_bands_witness :
    beta_val 2 = 2 ∧ (generate_reasoning 0 2).risk = highRisk :=
  ⟨(risk_threshold_bands 0 2).2.2.2.2.1 2 (by norm_num),
   (risk_threshold_bands 0 2).1.mpr (by norm_num [beta_val])⟩

/-- C6 counterexample: with an empty info record and history [0, 5]
the current price resolves to 5 and the previous close resolves to 0,
yet the Metric Deriver succeeds instead of failing with an explicit
error: the code contains no zero-check before the division. -/
theorem zero_previous_close_no_error_counterexample :
    resolve_current_price ⟨none, none, none, none, none, [0, 5]⟩ = some 5 ∧
    resolve_previous_close ⟨none, none, none, none, none, [0, 5]⟩ 5 = 0 ∧
    snapOk (get_snapshot "DGN" ⟨none, none, none, none, none, [0, 5]⟩) = true := by
  have h1 : resolve_current_price ⟨none, none, none, none, none, [0, 5]⟩ =
      some 5 := by
    simp [resolve_current_price, qTruthy]
  refine ⟨h1, ?_, ?_⟩
  · simp [resolve_previous_close, qTruthy]
  · rw [get_snapshot_ok_shape "DGN" _ 5 h1 (by norm_num)]
    rfl

/-- C6 amended: when the previous close resolves to zero the Metric
Deriver does not fail at all: whenever the current price resolves to a
truthy value it returns a snapshot, previous close included the zero
case (the division is unguarded; in the Python implementation it
produces an IEEE infinity rather than an exception or a domain
error). -/
theorem zero_previous_close_returns_ok (t : String) (q : RawQuote) (cp : ℚ)
    (hcp : resolve_current_price q = some cp) (h0 : cp ≠ 0)
    (hpc : resolve_previous_close q cp = 0) :
    snapOk (get_snapshot t q) = true := by
  rw [get_snapshot_ok_shape t q cp hcp h0]
  rfl

/-- Witness for the amended C6 at the history [0, 5] quote. -/
theorem zero_previous_close_returns_ok_witness :
    snapOk (get_snapshot "ZRO" ⟨none, none, none, none, none, [0, 5]⟩) = true :=
  zero_previous_close_returns_ok "ZRO" ⟨none, none, none, none, none, [0, 5]⟩ 5
    (by simp [resolve_current_price, qTruthy]) (by norm_num)
    (by simp [resolve_previous_close, qTruthy])

/-- C7: the classifier is total and deterministic: for every change
percentage and beta it yields one of the five fixed thesis labels and
one of the three fixed risk labels, and equal inputs give equal
outputs. -/
theorem classifier_total_deterministic (c b : ℚ) :
    ((generate_reasoning c b).thesis = strongBullishThesis ∨
     (generate_reasoning c b).thesis = modestBullishThesis ∨
     (generate_reasoning c b).thesis = strongBearishThesis ∨
     (generate_reasoning c b).thesis = bearishThesis ∨
     (generate_reasoning c b).thesis = neutralThesis) ∧
    ((generate_reasoning c b).risk = highRisk ∨
     (generate_reasoning c b).risk = lowRisk ∨
     (generate_reasoning c b).risk = mediumRisk) ∧
    generate_reasoning c b = generate_reasoning c b := by
  refine ⟨?_, ?_, rfl⟩
  · rw [generate_reasoning_thesis]; split_ifs <;> tauto
  · rw [generate_reasoning_risk]; split_ifs <;> tauto

/-- C8 counterexample: a quote carrying the (physically meaningless but
unvalidated) volume -7 succeeds and passes -7 through to the output,
refuting the claim that the emitted volume is always non-negative. -/
theorem negative_volume_counterexample :
    volumeOf (get_snapshot "NEG" ⟨some 100, none, none, some (-7), none, []⟩) =
      some (-7) ∧ (-7 : ℤ) < 0 := by
  have h1 : resolve_current_price ⟨some 100, none, none, some (-7), none, []⟩ =
      some 100 := by
    simp [resolve_current_price, qTruthy]
  refine ⟨?_, by norm_num⟩
  rw [get_snapshot_ok_shape "NEG" _ 100 h1 (by norm_num)]
  rfl

/-- C8 amended: on the success path the output volume is the quote
volume when present and nonzero, and 0 when it is absent or zero; the
output is non-negative whenever the input volume is non-negative, and
a missing volume never causes a failure (the success of the deriver
does not depend on the volume field at all). -/
theorem volume_passthrough (t : String) (q : RawQuote) (cp : ℚ)
    (hcp : resolve_current_price q = some cp) (h0 : cp ≠ 0) :
    ∃ s, get_snapshot t q = .ok s ∧
      s.data.volume = volumeOrZero q.volume ∧
      (∀ v, q.volume = some v → v ≠ 0 → s.data.volume = v) ∧
      (q.volume = none ∨ q.volume = some 0 → s.data.volume = 0) ∧
      (∀ v, q.volume = some v → 0 ≤ v → 0 ≤ s.data.volume) := by
  refine ⟨_, get_snapshot_ok_shape t q cp hcp h0, rfl, ?_, ?_, ?_⟩
  · intro v hv hvne
    simp [volumeOrZero, hv, hvne]
  · rintro (hv | hv) <;> simp [volumeOrZero, hv]
  · intro v hv hvpos
    simp only [volumeOrZero, hv]
    split_ifs <;> omega

/-- Witness for the amended C8 at a quote with volume 123. -/
theorem volume_passthrough_witness :
    ∃ s,
      get_snapshot "VOL" ⟨some 100, none, none, some 123, none, []⟩ = .ok s ∧
      s.data.volume =
        volumeOrZero (⟨some 100, none, none, some 123, none, []⟩ : RawQuote).volume ∧
      (∀ v, (⟨some 100, none, none, some 123, none, []⟩ : RawQuote).volume = some v →
        v ≠ 0 → s.data.volume = v) ∧
      ((⟨some 100, none, none, some 123, none, []⟩ : RawQuote).volume = none ∨
        (⟨some 100, none, none, some 123, none, []⟩ : RawQuote).volume = some 0 →
        s.data.volume = 0) ∧
      (∀ v, (⟨some 100, none, none, some 123, none, []⟩ : RawQuote).volume = some v →
        0 ≤ v → 0 ≤ s.data.volume) :=
  volume_passthrough "VOL" ⟨some 100, none, none, some 123, none, []⟩ 100
    (by simp [resolve_current_price, qTruthy]) (by norm_num)

/-- C9: noninterference between the two classifier inputs: the thesis
label is unchanged under any change of beta, and the risk label is
unchanged under any change of the change percentage. -/
theorem classifier_noninterference (c c2 b b2 : ℚ) :
    (generate_reasoning c b).thesis = (generate_reasoning c b2).thesis ∧
    (generate_reasoning c b).risk = (generate_reasoning c2 b).risk := ⟨rfl, rfl⟩

/-- C10: a price field that is present but equal to zero is treated
exactly as an absent one: replacing a zero current price, regular
market price or previous close by none never changes the output, and a
quote whose current and regular market prices are both zero with an
empty history fails with the no-price-data error. -/
theorem zero_price_fields_treated_as_absent (t : String) (q : RawQuote) :
    get_snapshot t { q with currentPrice := some 0 } =
      get_snapshot t { q with currentPrice := none } ∧
    get_snapshot t { q with regularMarketPrice := some 0 } =
      get_snapshot t { q with regularMarketPrice := none } ∧
    get_snapshot t { q with previousClose := some 0 } =
      get_snapshot t { q with previousClose := none } ∧
    (∀ pc v b, snapOk (get_snapshot t ⟨some 0, some 0, pc, v, b, []⟩) = false) := by
  refine ⟨?_, ?_, ?_, ?_⟩
  · simp [get_snapshot, resolve_current_price, resolve_previous_close, qTruthy]
  · have hrm :
        qTruthy (resolve_current_price { q with regularMarketPrice := some 0 }) =
          qTruthy (resolve_current_price { q with regularMarketPrice := none }) ∧
        (resolve_current_price { q with regularMarketPrice := some 0 }).getD 0 =
          (resolve_current_price { q with regularMarketPrice := none }).getD 0 := by
      unfold resolve_current_price
      cases hc : q.currentPrice with
      | none => cases hh : q.history <;> simp [qTruthy]
      | some x =>
        by_cases hx : x = 0
        · subst hx
          cases hh : q.history <;> simp [qTruthy]
        · simp [qTruthy, hx]
    exact get_snapshot_congr t _ _ hrm.1 hrm.2 rfl rfl rfl rfl rfl
  · simp [get_snapshot, resolve_current_price, resolve_previous_close, qTruthy]
  · intro pc v b
    rw [get_snapshot_error_shape t _ (by simp [resolve_current_price, qTruthy])]
    rfl
